import Mathlib

/-!
Shallow embedding of the feedback-board page
(src/src/app/[slug]/board/page.tsx) and verification of its
natural-language specification.

The page's logic consists of: a view-model mapper turning raw backend
rows into display records, a client-side search filter, a posts-query
builder parameterised by status filter and sort order, a sequential
load routine with per-step error handling, and a keyed vote patch on
the local posts list. Each is embedded below as a pure Lean function
faithful to the TypeScript source, including JavaScript truthiness
where the source relies on it.
-/

namespace SignalLoop

/-- One element of a backend aggregate array, e.g. votes(count). -/
structure AggRow where
  count : Int
deriving DecidableEq, Repr

/-- A raw post row as returned by the backend query. Fields that can be
absent in JavaScript (undefined) are Options; the aggregate columns are
optional arrays of count records, matching the shape
vote_count:votes(count). -/
structure RawPostRow where
  id : String
  title : String
  description : Option String
  author_email : Option String
  status : String
  created_at : String
  vote_count : Option (List AggRow)
  comment_count : Option (List AggRow)
deriving DecidableEq, Repr

/-- The Post view model of the page (interface Post in the source). -/
structure Post where
  id : String
  title : String
  description : Option String
  author_email : Option String
  status : String
  created_at : String
  vote_count : Int
  comment_count : Int
  user_voted : Bool
deriving DecidableEq, Repr

/-- JavaScript `x || 0` on a possibly-undefined number: undefined and 0
are falsy and give 0; any other number is returned unchanged. -/
def jsOrZero : Option Int → Int
  | none => 0
  | some c => if c = 0 then 0 else c

/-- JavaScript `arr?.[0]?.count` on an optional aggregate array: none if
the array is absent or empty, otherwise the first element's count. -/
def firstAggCount (arr : Option (List AggRow)) : Option Int :=
  (arr.bind List.head?).map AggRow.count

/-- The view-model mapper applied to each raw row (the body of the
`postsData?.map` at lines 157-167 of the source): scalar fields are
carried through, the aggregate arrays are flattened via
`?.[0]?.count || 0`, and user_voted is hardcoded to false. -/
def mapPost (post : RawPostRow) : Post :=
  { id := post.id
    title := post.title
    description := post.description
    author_email := post.author_email
    status := post.status
    created_at := post.created_at
    vote_count := jsOrZero (firstAggCount post.vote_count)
    comment_count := jsOrZero (firstAggCount post.comment_count)
    user_voted := false }

/-- List-of-characters prefix test, the base of substring search. -/
def charsStartWith : List Char → List Char → Bool
  | [], _ => true
  | _ :: _, [] => false
  | a :: as, b :: bs => a == b && charsStartWith as bs

/-- JavaScript `s.includes(pat)`: pat occurs as a contiguous substring
of s (the empty pattern occurs in every string). -/
def charsInclude (pat : List Char) : List Char → Bool
  | [] => charsStartWith pat []
  | c :: t => charsStartWith pat (c :: t) || charsInclude pat t

/-- String-level `s.includes(pat)`. -/
def strIncludes (s pat : String) : Bool :=
  charsInclude pat.data s.data

/-- JavaScript `s.toLowerCase()`, modelled characterwise. -/
def toLowerStr (s : String) : String :=
  String.mk (s.data.map Char.toLower)

/-- Case-insensitive substring test used by the search filter. -/
def ciContains (s pat : String) : Bool :=
  strIncludes (toLowerStr s) (toLowerStr pat)

/-- The search predicate from lines 185-188 of the source:
`post.title.toLowerCase().includes(term.toLowerCase()) ||
post.description?.toLowerCase().includes(term.toLowerCase())`.
An absent description makes the optional chain yield undefined, which
is falsy, so only the title clause can match then. -/
def matchesSearch (term : String) (post : Post) : Bool :=
  ciContains post.title term ||
    (match post.description with
     | some d => ciContains d term
     | none => false)

/-- The filteredPosts computation: filter the fetched posts by the
search term. -/
def filteredPosts (posts : List Post) (term : String) : List Post :=
  posts.filter (matchesSearch term)

/-- Modelled from the spec wording of the search contract: a post
matches when its title or its description contains the search string as
a case-insensitive substring, an absent description being treated as
non-matching. Used to compare the code's filter against the spec. -/
def specSearchMatch (term : String) (post : Post) : Bool :=
  ciContains post.title term ||
    ((post.description.map (fun d => ciContains d term)).getD false)

/-- A Project row ({id, name, slug}). -/
structure Project where
  id : String
  name : String
  slug : String
deriving DecidableEq, Repr

/-- A Board row as selected by the page (id only). -/
structure Board where
  id : String
deriving DecidableEq, Repr

/-- The shape of a posts query built by the page: the table, equality
predicates, null predicates, and an ordering list of (column,
ascending) pairs, in the order the source chains them. -/
structure PostsQuery where
  table : String
  eqFilters : List (String × String)
  isNullFilters : List String
  orderings : List (String × Bool)
deriving DecidableEq, Repr

/-- The posts query construction from lines 124-146 of the source:
base query scoped to the board and excluding duplicates, then a status
equality predicate only when statusFilter is not "all", then at most
one ordering chosen by sortBy. -/
def buildPostsQuery (boardId : String) (statusFilter : String) (sortBy : String) : PostsQuery :=
  let base : PostsQuery :=
    { table := "posts"
      eqFilters := [("board_id", boardId)]
      isNullFilters := ["duplicate_of"]
      orderings := [] }
  let q1 :=
    if statusFilter ≠ "all" then
      { base with eqFilters := base.eqFilters ++ [("status", statusFilter)] }
    else base
  if sortBy = "votes" then
    { q1 with orderings := q1.orderings ++ [("vote_count", false)] }
  else if sortBy = "newest" then
    { q1 with orderings := q1.orderings ++ [("created_at", false)] }
  else if sortBy = "oldest" then
    { q1 with orderings := q1.orderings ++ [("created_at", true)] }
  else q1

/-- Outcome of one awaited backend call: a successful result, a
supabase-style error result (which with .single() also covers the
no-row case), or an exception escaping the await. -/
inductive StepRes (α : Type) where
  | ok : α → StepRes α
  | err : StepRes α
  | thrown : StepRes α
deriving DecidableEq, Repr

/-- The backend environment of one run of the load sequence: whether a
client is configured, and the result each sequential call would
produce if issued. -/
structure Backend where
  connected : Bool
  projectRes : StepRes Project
  boardRes : StepRes Board
  postsRes : StepRes (List RawPostRow)
deriving Repr

/-- The page state slots touched by the load sequence. -/
structure PageState where
  project : Option Project
  posts : List Post
  loading : Bool
  error : String
  boardId : Option String
deriving DecidableEq, Repr

/-- Observable side effects of one run of the load sequence: toasts
shown, navigation targets pushed, and which backend queries were
actually issued. -/
structure Effects where
  toasts : List String
  navTargets : List String
  boardQueried : Bool
  postsQueried : Bool
deriving DecidableEq, Repr

/-- The loadProjectAndPosts sequence (lines 84-177 of the source): a
missing client sets an inline error and clears loading without any
query; otherwise project, board and posts are resolved in order with
per-step aborts (toast "Project not found" plus navigation to the
root, toast "Board not found", toast "Error loading posts"), an
exception anywhere is caught with toast "Something went wrong", and
the finally step clears the loading flag on every path. -/
def loadProjectAndPosts (b : Backend) (st : PageState) : PageState × Effects :=
  if !b.connected then
    ({ st with
        error := "Database connection not available. Please refresh the page."
        loading := false },
     { toasts := [], navTargets := [], boardQueried := false, postsQueried := false })
  else
    let st1 := { st with loading := true }
    match b.projectRes with
    | .thrown =>
      ({ st1 with loading := false },
       { toasts := ["Something went wrong"], navTargets := [],
         boardQueried := false, postsQueried := false })
    | .err =>
      ({ st1 with loading := false },
       { toasts := ["Project not found"], navTargets := ["/"],
         boardQueried := false, postsQueried := false })
    | .ok proj =>
      let st2 := { st1 with project := some proj }
      match b.boardRes with
      | .thrown =>
        ({ st2 with loading := false },
         { toasts := ["Something went wrong"], navTargets := [],
           boardQueried := true, postsQueried := false })
      | .err =>
        ({ st2 with loading := false },
         { toasts := ["Board not found"], navTargets := [],
           boardQueried := true, postsQueried := false })
      | .ok board =>
        let st3 := { st2 with boardId := some board.id }
        match b.postsRes with
        | .thrown =>
          ({ st3 with loading := false },
           { toasts := ["Something went wrong"], navTargets := [],
             boardQueried := true, postsQueried := true })
        | .err =>
          ({ st3 with loading := false },
           { toasts := ["Error loading posts"], navTargets := [],
             boardQueried := true, postsQueried := true })
        | .ok rows =>
          ({ st3 with posts := rows.map mapPost, loading := false },
           { toasts := [], navTargets := [],
             boardQueried := true, postsQueried := true })

/-- The mount condition of the submission modal (line 450 of the
source): `showPostForm && project && boardId`. -/
def submissionFormMounted (showPostForm : Bool) (project : Option Project)
    (boardId : Option String) : Bool :=
  showPostForm && project.isSome && boardId.isSome

/-- The onVoteChange state patch (lines 366-373 of the source): map
over the list, replacing vote_count and user_voted on the post whose
id matches, leaving every other post as is. -/
def updatePostsOnVote (posts : List Post) (postId : String) (newCount : Int)
    (userVoted : Bool) : List Post :=
  posts.map (fun p =>
    if p.id = postId then { p with vote_count := newCount, user_voted := userVoted }
    else p)

/-! Sample values used by the witness theorems. -/

def sampleRow : RawPostRow :=
  { id := "p1", title := "Dark mode", description := some "Please add dark mode"
    author_email := none, status := "open", created_at := "2024-01-01"
    vote_count := none, comment_count := some [] }

def postA : Post :=
  { id := "p1", title := "Dark mode", description := none, author_email := none
    status := "open", created_at := "2024-01-01", vote_count := 1
    comment_count := 0, user_voted := false }

def postB : Post :=
  { id := "p2", title := "Export CSV", description := some "Export data as CSV"
    author_email := some "a@b.c", status := "planned", created_at := "2024-01-02"
    vote_count := 3, comment_count := 2, user_voted := false }

/-! Theorems. -/

/-- C1: the view-model mapper is total on raw rows (it is a Lean
function on the full row type, with every possibly-absent field an
Option), maps the vote and comment aggregates to the first element's
count or 0 when the array is absent or empty, and carries every scalar
field through unchanged. -/
theorem mapPost_total_and_faithful (row : RawPostRow) :
    ((row.vote_count = none ∨ row.vote_count = some []) → (mapPost row).vote_count = 0) ∧
    (∀ c rest, row.vote_count = some (c :: rest) → (mapPost row).vote_count = c.count) ∧
    ((row.comment_count = none ∨ row.comment_count = some []) →
      (mapPost row).comment_count = 0) ∧
    (∀ c rest, row.comment_count = some (c :: rest) → (mapPost row).comment_count = c.count) ∧
    (mapPost row).id = row.id ∧
    (mapPost row).title = row.title ∧
    (mapPost row).description = row.description ∧
    (mapPost row).author_email = row.author_email ∧
    (mapPost row).status = row.status ∧
    (mapPost row).created_at = row.created_at := by
  refine ⟨?_, ?_, ?_, ?_, rfl, rfl, rfl, rfl, rfl, rfl⟩
  · rintro (h | h) <;> simp [mapPost, firstAggCount, jsOrZero, h]
  · intro c rest h
    rcases eq_or_ne c.count 0 with h0 | h0 <;>
      simp [mapPost, firstAggCount, jsOrZero, h, h0]
  · rintro (h | h) <;> simp [mapPost, firstAggCount, jsOrZero, h]
  · intro c rest h
    rcases eq_or_ne c.count 0 with h0 | h0 <;>
      simp [mapPost, firstAggCount, jsOrZero, h, h0]

/-- Witness for C1 at a concrete row with an absent votes aggregate and
an empty comments aggregate. -/
theorem mapPost_total_and_faithful_witness :
    (mapPost sampleRow).vote_count = 0 ∧ (mapPost sampleRow).comment_count = 0 :=
  ⟨(mapPost_total_and_faithful sampleRow).1 (Or.inl rfl),
   (mapPost_total_and_faithful sampleRow).2.2.1 (Or.inr rfl)⟩

/-- C9: for every raw row, whatever it contains, the mapped view
model's user_voted field is false. -/
theorem mapPost_user_voted_false (row : RawPostRow) :
    (mapPost row).user_voted = false := rfl

/-- C8: patching a vote for a postId present in the list preserves the
length and the id sequence (hence the order), leaves every post at a
position whose id differs from postId unchanged in all fields, and
replaces the post at a matching position by the same record with only
vote_count and user_voted changed. -/
theorem updatePostsOnVote_frame (posts : List Post) (postId : String)
    (newCount : Int) (userVoted : Bool)
    (hmem : postId ∈ posts.map Post.id) :
    (updatePostsOnVote posts postId newCount userVoted).length = posts.length ∧
    (updatePostsOnVote posts postId newCount userVoted).map Post.id = posts.map Post.id ∧
    (∀ (i : Nat) (p : Post), posts[i]? = some p → p.id ≠ postId →
      (updatePostsOnVote posts postId newCount userVoted)[i]? = some p) ∧
    (∀ (i : Nat) (p : Post), posts[i]? = some p → p.id = postId →
      (updatePostsOnVote posts postId newCount userVoted)[i]? =
        some { p with vote_count := newCount, user_voted := userVoted }) := by
  refine ⟨List.length_map _ _, ?_, ?_, ?_⟩
  · rw [updatePostsOnVote, List.map_map]
    refine List.map_congr_left (fun p _ => ?_)
    by_cases h : p.id = postId <;> simp [h]
  · intro i p hi hne
    simp [updatePostsOnVote, List.getElem?_map, hi, hne]
  · intro i p hi heq
    simp [updatePostsOnVote, List.getElem?_map, hi, heq]

/-- Witness for C8: patching post p1 in a two-post list leaves the
post with the other id untouched and rewrites only p1's vote fields. -/
theorem updatePostsOnVote_frame_witness :
    (updatePostsOnVote [postA, postB] "p1" 5 true)[1]? = some postB ∧
    (updatePostsOnVote [postA, postB] "p1" 5 true)[0]? =
      some { postA with vote_count := 5, user_voted := true } :=
  ⟨(updatePostsOnVote_frame [postA, postB] "p1" 5 true (by decide)).2.2.1 1 postB
      (by decide) (by decide),
   (updatePostsOnVote_frame [postA, postB] "p1" 5 true (by decide)).2.2.2 0 postA
      (by decide) (by decide)⟩

/-- C10: a vote-change callback whose postId matches no post in the
list leaves the list identical. -/
theorem updatePostsOnVote_noop (posts : List Post) (postId : String)
    (newCount : Int) (userVoted : Bool)
    (h : ∀ p ∈ posts, p.id ≠ postId) :
    updatePostsOnVote posts postId newCount userVoted = posts := by
  induction posts with
  | nil => rfl
  | cons q t ih =>
    have hq : q.id ≠ postId := h q (List.mem_cons_self q t)
    have ht := ih (fun p hp => h p (List.mem_cons_of_mem q hp))
    simp only [updatePostsOnVote, List.map_cons, if_neg hq]
    simp only [updatePostsOnVote] at ht
    rw [ht]

/-- Witness for C10 at a concrete list and an id matching no post. -/
theorem updatePostsOnVote_noop_witness :
    updatePostsOnVote [postA, postB] "zzz" 9 true = [postA, postB] :=
  updatePostsOnVote_noop [postA, postB] "zzz" 9 true (by decide)

lemma charsStartWith_nil (s : List Char) : charsStartWith [] s = true := by
  cases s <;> rfl

lemma charsInclude_nil (s : List Char) : charsInclude [] s = true := by
  cases s <;> simp [charsInclude, charsStartWith_nil]

lemma toLowerStr_empty : toLowerStr "" = "" := rfl

lemma ciContains_empty_pat (s : String) : ciContains s "" = true := by
  simp [ciContains, strIncludes, toLowerStr_empty]
  exact charsInclude_nil _

lemma matchesSearch_empty (p : Post) : matchesSearch "" p = true := by
  simp [matchesSearch, ciContains_empty_pat]

lemma matchesSearch_eq_spec (term : String) (p : Post) :
    matchesSearch term p = specSearchMatch term p := by
  rcases hd : p.description with _ | d <;> simp [matchesSearch, specSearchMatch, hd]

/-- C2: the search filter produces a subsequence of the posts list, it
equals filtering by the spec predicate (case-insensitive substring
match on title or description, absent description non-matching), the
empty search string keeps every post, and on a post with an absent
description the predicate degenerates to the title check alone. The
input list itself is untouched (the filter is a pure function of it). -/
theorem filteredPosts_spec (posts : List Post) (term : String) :
    List.Sublist (filteredPosts posts term) posts ∧
    filteredPosts posts term = posts.filter (specSearchMatch term) ∧
    filteredPosts posts "" = posts ∧
    (∀ p : Post, p.description = none →
      matchesSearch term p = ciContains p.title term) := by
  refine ⟨List.filter_sublist posts, ?_, ?_, ?_⟩
  · exact List.filter_congr (fun p _ => matchesSearch_eq_spec term p)
  · exact List.filter_eq_self.mpr (fun p _ => matchesSearch_empty p)
  · intro p hd
    simp [matchesSearch, hd]

/-- Witness for C2 at a concrete post with an absent description. -/
theorem filteredPosts_spec_witness :
    matchesSearch "mode" postA = ciContains postA.title "mode" :=
  (filteredPosts_spec [postA] "mode").2.2.2 postA rfl

lemma buildPostsQuery_eqFilters (boardId sf sb : String) :
    (buildPostsQuery boardId sf sb).eqFilters =
      if sf ≠ "all" then [("board_id", boardId), ("status", sf)]
      else [("board_id", boardId)] := by
  unfold buildPostsQuery
  by_cases h : sf = "all" <;> by_cases h1 : sb = "votes" <;>
    by_cases h2 : sb = "newest" <;> by_cases h3 : sb = "oldest" <;>
    simp [h, h1, h2, h3]

lemma buildPostsQuery_orderings (boardId sf sb : String) :
    (buildPostsQuery boardId sf sb).orderings =
      if sb = "votes" then [("vote_count", false)]
      else if sb = "newest" then [("created_at", false)]
      else if sb = "oldest" then [("created_at", true)]
      else [] := by
  unfold buildPostsQuery
  by_cases h : sf = "all" <;> by_cases h1 : sb = "votes" <;>
    by_cases h2 : sb = "newest" <;> by_cases h3 : sb = "oldest" <;>
    simp [h, h1, h2, h3]

/-- C3: when statusFilter is not "all" the built posts query carries
the equality predicate status = statusFilter; when it is "all" no
predicate on the status column is present at all. -/
theorem buildPostsQuery_status (boardId statusFilter sortBy : String) :
    (statusFilter ≠ "all" →
      ("status", statusFilter) ∈ (buildPostsQuery boardId statusFilter sortBy).eqFilters) ∧
    (statusFilter = "all" →
      ∀ v : String, ("status", v) ∉ (buildPostsQuery boardId statusFilter sortBy).eqFilters) := by
  constructor
  · intro h
    simp [buildPostsQuery_eqFilters, h]
  · intro h v
    simp [buildPostsQuery_eqFilters, h]

/-- Witness for C3: a concrete non-"all" filter adds the predicate and
the "all" filter leaves the status column unconstrained. -/
theorem buildPostsQuery_status_witness :
    ("status", "planned") ∈ (buildPostsQuery "b1" "planned" "votes").eqFilters ∧
    ("status", "open") ∉ (buildPostsQuery "b1" "all" "votes").eqFilters :=
  ⟨(buildPostsQuery_status "b1" "planned" "votes").1 (by decide),
   (buildPostsQuery_status "b1" "all" "votes").2 rfl "open"⟩

/-- C4: the ordering of the built posts query is exactly descending
vote_count for "votes", descending created_at for "newest", ascending
created_at for "oldest", and empty for any other sortBy value. -/
theorem buildPostsQuery_sort (boardId statusFilter sortBy : String) :
    (sortBy = "votes" →
      (buildPostsQuery boardId statusFilter sortBy).orderings = [("vote_count", false)]) ∧
    (sortBy = "newest" →
      (buildPostsQuery boardId statusFilter sortBy).orderings = [("created_at", false)]) ∧
    (sortBy = "oldest" →
      (buildPostsQuery boardId statusFilter sortBy).orderings = [("created_at", true)]) ∧
    (sortBy ≠ "votes" → sortBy ≠ "newest" → sortBy ≠ "oldest" →
      (buildPostsQuery boardId statusFilter sortBy).orderings = []) := by
  refine ⟨?_, ?_, ?_, ?_⟩ <;> intro h <;>
    simp_all [buildPostsQuery_orderings]

/-- Witness for C4 at the three recognised sort keys and one other. -/
theorem buildPostsQuery_sort_witness :
    (buildPostsQuery "b1" "all" "votes").orderings = [("vote_count", false)] ∧
    (buildPostsQuery "b1" "all" "oldest").orderings = [("created_at", true)] ∧
    (buildPostsQuery "b1" "all" "other").orderings = [] :=
  ⟨(buildPostsQuery_sort "b1" "all" "votes").1 rfl,
   (buildPostsQuery_sort "b1" "all" "oldest").2.2.1 rfl,
   (buildPostsQuery_sort "b1" "all" "other").2.2.2 (by decide) (by decide) (by decide)⟩

def sampleProject : Project := { id := "pr1", name := "Acme", slug := "acme" }

def sampleBoard : Board := { id := "b1" }

def sampleState : PageState :=
  { project := none, posts := [postA], loading := true, error := "", boardId := none }

def backendPostsErr : Backend :=
  { connected := true, projectRes := .ok sampleProject
    boardRes := .ok sampleBoard, postsRes := .err }

def backendProjErr : Backend :=
  { connected := true, projectRes := .err, boardRes := .ok sampleBoard
    postsRes := .ok [] }

def backendBoardErr : Backend :=
  { connected := true, projectRes := .ok sampleProject, boardRes := .err
    postsRes := .ok [] }

/-- C5: the loading flag ends false on every terminating path of the
load sequence, and when the posts query itself errors the only toast
is "Error loading posts" while the posts state keeps its previous
value. -/
theorem loadPosts_posts_error_and_loading (b : Backend) (st : PageState)
    (p : Project) (bd : Board) :
    (loadProjectAndPosts b st).1.loading = false ∧
    (b.connected = true → b.projectRes = .ok p → b.boardRes = .ok bd →
      b.postsRes = .err →
      (loadProjectAndPosts b st).2.toasts = ["Error loading posts"] ∧
      (loadProjectAndPosts b st).1.posts = st.posts) := by
  constructor
  · rcases b with ⟨c, pr, br, psr⟩
    cases c <;> cases pr <;> cases br <;> cases psr <;> rfl
  · intro hc hp hb hps
    simp [loadProjectAndPosts, hc, hp, hb, hps]

/-- Witness for C5 at a concrete backend whose posts query errors. -/
theorem loadPosts_posts_error_witness :
    (loadProjectAndPosts backendPostsErr sampleState).2.toasts = ["Error loading posts"] ∧
    (loadProjectAndPosts backendPostsErr sampleState).1.posts = sampleState.posts :=
  (loadPosts_posts_error_and_loading backendPostsErr sampleState
    sampleProject sampleBoard).2 rfl rfl rfl rfl

/-- C6: when the project lookup errors (which with a single-row fetch
also covers the no-row case), the sequence toasts "Project not found",
navigates to the root route, leaves the project state untouched, and
issues neither the board nor the posts query. -/
theorem loadPosts_project_not_found (b : Backend) (st : PageState)
    (hc : b.connected = true) (hp : b.projectRes = .err) :
    (loadProjectAndPosts b st).2.toasts = ["Project not found"] ∧
    (loadProjectAndPosts b st).2.navTargets = ["/"] ∧
    (loadProjectAndPosts b st).1.project = st.project ∧
    (loadProjectAndPosts b st).2.boardQueried = false ∧
    (loadProjectAndPosts b st).2.postsQueried = false := by
  simp [loadProjectAndPosts, hc, hp]

/-- Witness for C6 at a concrete backend whose project lookup errors. -/
theorem loadPosts_project_not_found_witness :
    (loadProjectAndPosts backendProjErr sampleState).2.toasts = ["Project not found"] ∧
    (loadProjectAndPosts backendProjErr sampleState).2.navTargets = ["/"] ∧
    (loadProjectAndPosts backendProjErr sampleState).1.project = sampleState.project ∧
    (loadProjectAndPosts backendProjErr sampleState).2.boardQueried = false ∧
    (loadProjectAndPosts backendProjErr sampleState).2.postsQueried = false :=
  loadPosts_project_not_found backendProjErr sampleState rfl rfl

/-- C7: when the project resolves but the board lookup errors or finds
no row, the sequence toasts "Board not found" with the project state
already set, never issues the posts query, leaves boardId at its
previous value, and if boardId was null the submission form's mount
condition is false for every value of the show flag. -/
theorem loadPosts_board_not_found (b : Backend) (st : PageState) (p : Project)
    (hc : b.connected = true) (hp : b.projectRes = .ok p)
    (hb : b.boardRes = .err) :
    (loadProjectAndPosts b st).2.toasts = ["Board not found"] ∧
    (loadProjectAndPosts b st).1.project = some p ∧
    (loadProjectAndPosts b st).2.postsQueried = false ∧
    (loadProjectAndPosts b st).1.boardId = st.boardId ∧
    (st.boardId = none → ∀ sh : Bool,
      submissionFormMounted sh (loadProjectAndPosts b st).1.project
        (loadProjectAndPosts b st).1.boardId = false) := by
  refine ⟨?_, ?_, ?_, ?_, ?_⟩ <;>
    simp [loadProjectAndPosts, hc, hp, hb, submissionFormMounted]

/-- Witness for C7 at a concrete backend whose board lookup errors,
starting from a state with a null boardId. -/
theorem loadPosts_board_not_found_witness :
    (loadProjectAndPosts backendBoardErr sampleState).2.toasts = ["Board not found"] ∧
    submissionFormMounted true (loadProjectAndPosts backendBoardErr sampleState).1.project
      (loadProjectAndPosts backendBoardErr sampleState).1.boardId = false :=
  ⟨(loadPosts_board_not_found backendBoardErr sampleState sampleProject rfl rfl rfl).1,
   (loadPosts_board_not_found backendBoardErr sampleState sampleProject
      rfl rfl rfl).2.2.2.2 rfl true⟩

end SignalLoop
